import Mathlib

/-!
Shallow embedding of the card-emulation engine and protocol adapters of the
javacard-docker-emulator scripts.

* `SimpleCardSimulator` (jcardsim-socket-server.py) is embedded as a state
  record `CardState` together with pure transition functions
  `process_apdu`, `process_helloworld`, `process_counter`, `handle_select`.
  Byte strings are `List Nat` (each element `< 256` on real wires).
  A handler returns `CardState × Option Bytes`; the `Option` is `none`
  exactly when the Python code would raise an uncaught exception while
  building its reply (state mutations performed before the raising
  expression are kept, matching Python's evaluation order).
* The VPCD adapters (vpcd-jcardsim-proxy.py, vpcd-proxy.py) are embedded as
  per-frame step functions over their `powered` flags, parameterised by an
  abstract backend; each step reports whether a backend connect/exchange
  was attempted.
* The 2-byte big-endian framing codec (used identically by
  pcsc-bridge.py's `JCardSimClient.send_apdu` and the socket server's
  `SocketServer._handle_client`) is embedded as `encode`/`decodeResponse`.
-/

namespace JavacardEmu

abbrev Bytes := List Nat

/-- Python `int.to_bytes(len, 'big')` digits, big-endian, fixed width. -/
def bytesBE : Nat → Nat → Bytes
  | 0, _ => []
  | k + 1, n => bytesBE k (n / 256) ++ [n % 256]

/-- Python `int.to_bytes(len, 'big')`: raises `OverflowError` when the value
does not fit, modelled as `none`. -/
def intToBytes (n len : Nat) : Option Bytes :=
  if n < 256 ^ len then some (bytesBE len n) else none

/-- Python `bytes([...])`: raises `ValueError` when an element is `≥ 256`,
modelled as `none`. -/
def bytesOf (l : List Nat) : Option Bytes :=
  if l.all (· < 256) then some l else none

/-- Python `int.from_bytes(data, 'big')`. -/
def fromBytesBE (l : Bytes) : Nat :=
  l.foldl (fun a b => a * 256 + b) 0

/-- `SimpleCardSimulator.AID_HELLOWORLD = bytes.fromhex('F0000000010001')`. -/
def AID_HELLOWORLD : Bytes := [0xF0, 0x00, 0x00, 0x00, 0x01, 0x00, 0x01]

/-- `SimpleCardSimulator.AID_COUNTER = bytes.fromhex('F0000000010002')`. -/
def AID_COUNTER : Bytes := [0xF0, 0x00, 0x00, 0x00, 0x01, 0x00, 0x02]

/-- The mutable fields of `SimpleCardSimulator`.  `hw_data` stands for
`data_store.get('hw_data', b'')` (the only key the code ever uses); the
empty list plays the role of "nothing stored", exactly as the Python
truthiness tests do. -/
structure CardState where
  selected_aid : Option Bytes
  hw_data : Bytes
  hw_pin_validated : Bool
  hw_pin_tries : Nat
  hw_usage_count : Nat
  counter_value : Nat
  counter_limit : Nat
  counter_limit_enabled : Bool
  counter_op_count : Nat
  deriving Repr, DecidableEq

/-- `SimpleCardSimulator.__init__` defaults. -/
def initialState : CardState :=
  { selected_aid := none
    hw_data := []
    hw_pin_validated := false
    hw_pin_tries := 3
    hw_usage_count := 0
    counter_value := 0
    counter_limit := 0x7FFFFFFF
    counter_limit_enabled := false
    counter_op_count := 0 }

/-- `b'Hello World!'`. -/
def helloMsg : Bytes := [72, 101, 108, 108, 111, 32, 87, 111, 114, 108, 100, 33]

/-- `b'1234'`: the fixed reference PIN. -/
def referencePin : Bytes := [0x31, 0x32, 0x33, 0x34]

/-- The instruction dispatch of `SimpleCardSimulator._process_helloworld`,
taking the state after the `hw_usage_count += 1` line. -/
def process_helloworld_ins (s : CardState) (ins _p1 _p2 : Nat) (data : Bytes) :
    CardState × Option Bytes :=
  if ins = 0x00 then (s, some (helloMsg ++ [0x90, 0x00]))
  else if ins = 0x01 then
    if data ≠ [] then (s, some (data ++ [0x90, 0x00])) else (s, some [0x90, 0x00])
  else if ins = 0x02 then
    if s.hw_data ≠ [] then (s, some (s.hw_data ++ [0x90, 0x00]))
    else (s, some [0x69, 0x85])
  else if ins = 0x03 then
    if ¬ s.hw_pin_validated then (s, some [0x69, 0x85])
    else if data ≠ [] then ({ s with hw_data := data }, some [0x90, 0x00])
    else (s, some [0x90, 0x00])
  else if ins = 0x20 then
    if data = referencePin then
      ({ s with hw_pin_validated := true, hw_pin_tries := 3 }, some [0x90, 0x00])
    else
      let t := s.hw_pin_tries - 1
      ({ s with hw_pin_tries := t }, bytesOf [0x63, 0xC0 ||| t])
  else if ins = 0xF0 then
    let dl := s.hw_data.length
    (s, (bytesOf [0x01, 0x00,
        (s.hw_usage_count >>> 8) &&& 0xFF, s.hw_usage_count &&& 0xFF,
        s.hw_pin_tries,
        if s.hw_pin_validated then 0x01 else 0x00,
        (dl >>> 8) &&& 0xFF, dl &&& 0xFF]).map (· ++ [0x90, 0x00]))
  else (s, some [0x6D, 0x00])

/-- `SimpleCardSimulator._process_helloworld`: `self.hw_usage_count += 1`
first, then the instruction dispatch. -/
def process_helloworld (s0 : CardState) (ins p1 p2 : Nat) (data : Bytes) :
    CardState × Option Bytes :=
  process_helloworld_ins { s0 with hw_usage_count := s0.hw_usage_count + 1 }
    ins p1 p2 data

/-- The instruction dispatch of `SimpleCardSimulator._process_counter`,
taking the state after the `counter_op_count += 1` line. -/
def process_counter_ins (s : CardState) (ins p1 _p2 : Nat) (data : Bytes) :
    CardState × Option Bytes :=
  if ins = 0x10 then
    (s, (intToBytes s.counter_value 4).map (· ++ [0x90, 0x00]))
  else if ins = 0x11 then
    let inc := if p1 > 0 then p1 else 1
    let new_val := s.counter_value + inc
    if s.counter_limit_enabled ∧ new_val > s.counter_limit then (s, some [0x69, 0x85])
    else if new_val > 0xFFFFFFFF then (s, some [0x69, 0x85])
    else ({ s with counter_value := new_val },
      (intToBytes new_val 4).map (· ++ [0x90, 0x00]))
  else if ins = 0x12 then
    let dec := if p1 > 0 then p1 else 1
    if s.counter_value < dec then (s, some [0x69, 0x85])
    else ({ s with counter_value := s.counter_value - dec },
      (intToBytes (s.counter_value - dec) 4).map (· ++ [0x90, 0x00]))
  else if ins = 0x13 then
    ({ s with counter_value := 0 }, some [0x90, 0x00])
  else if ins = 0x14 then
    if data.length ≠ 4 then (s, some [0x67, 0x00])
    else
      let new_val := fromBytesBE data
      if s.counter_limit_enabled ∧ new_val > s.counter_limit then (s, some [0x69, 0x85])
      else ({ s with counter_value := new_val }, some [0x90, 0x00])
  else if ins = 0x15 then
    if data.length ≠ 4 then (s, some [0x67, 0x00])
    else ({ s with counter_limit := fromBytesBE data
                   counter_limit_enabled := decide (p1 = 0x01) }, some [0x90, 0x00])
  else if ins = 0x16 then
    (s, do
      let a ← intToBytes s.counter_value 4
      let b ← intToBytes s.counter_limit 4
      let c ← intToBytes s.counter_op_count 2
      pure (a ++ b ++ [if s.counter_limit_enabled then 0x01 else 0x00] ++ c
        ++ [0x90, 0x00]))
  else if ins = 0x17 then
    if data.length ≠ 2 then (s, some [0x67, 0x00])
    else
      let add_val := fromBytesBE data
      let new_val := s.counter_value + add_val
      if s.counter_limit_enabled ∧ new_val > s.counter_limit then (s, some [0x69, 0x85])
      else if new_val > 0xFFFFFFFF then (s, some [0x69, 0x85])
      else ({ s with counter_value := new_val },
        (intToBytes new_val 4).map (· ++ [0x90, 0x00]))
  else if ins = 0x18 then
    if data.length ≠ 2 then (s, some [0x67, 0x00])
    else
      let sub_val := fromBytesBE data
      if s.counter_value < sub_val then (s, some [0x69, 0x85])
      else ({ s with counter_value := s.counter_value - sub_val },
        (intToBytes (s.counter_value - sub_val) 4).map (· ++ [0x90, 0x00]))
  else (s, some [0x6D, 0x00])

/-- `SimpleCardSimulator._process_counter`: `self.counter_op_count += 1`
first, then the instruction dispatch. -/
def process_counter (s0 : CardState) (ins p1 p2 : Nat) (data : Bytes) :
    CardState × Option Bytes :=
  process_counter_ins { s0 with counter_op_count := s0.counter_op_count + 1 }
    ins p1 p2 data

/-- `SimpleCardSimulator._handle_select`.  The Python assigns
`selected_aid` before building the FCI, so the state update survives even
when `bytes([...])` would raise (AID length ≥ 254). -/
def handle_select (s : CardState) (apdu : Bytes) : CardState × Option Bytes :=
  if apdu.length < 5 then (s, some [0x67, 0x00])
  else
    let lc := apdu.getD 4 0
    if apdu.length < 5 + lc then (s, some [0x67, 0x00])
    else
      let aid := (apdu.drop 5).take lc
      ({ s with selected_aid := some aid },
        (bytesOf [0x6F, aid.length + 2, 0x84, aid.length]).map
          (· ++ aid ++ [0x90, 0x00]))

/-- `SimpleCardSimulator.process_apdu`: the engine's dispatch. -/
def process_apdu (s : CardState) (apdu : Bytes) : CardState × Option Bytes :=
  if apdu.length < 4 then (s, some [0x67, 0x00])
  else
    let cla := apdu.getD 0 0
    let ins := apdu.getD 1 0
    let p1 := apdu.getD 2 0
    let p2 := apdu.getD 3 0
    let lc := if apdu.length > 4 then apdu.getD 4 0 else 0
    let data := if apdu.length > 5 then (apdu.drop 5).take lc else []
    if ins = 0xA4 then handle_select s apdu
    else if ins = 0xC0 then (s, some [0x90, 0x00])
    else if cla = 0x80 then
      if s.selected_aid = some AID_HELLOWORLD then
        process_helloworld s ins p1 p2 data
      else if s.selected_aid = some AID_COUNTER then
        process_counter s ins p1 p2 data
      else (s, some [0x6D, 0x00])
    else (s, some [0x6D, 0x00])

/-- Dispatch a list of APDUs in order, keeping only the state. -/
def run (s : CardState) (cmds : List Bytes) : CardState :=
  cmds.foldl (fun st c => (process_apdu st c).1) s

/-- A well-formed SELECT APDU for a given AID. -/
def selectApdu (aid : Bytes) : Bytes := [0x00, 0xA4, 0x04, 0x00, aid.length] ++ aid

/-- The HelloWorld applet's private slot: PIN-validated flag, PIN tries,
usage counter, stored data. -/
def hwSlot (s : CardState) : Bool × Nat × Nat × Bytes :=
  (s.hw_pin_validated, s.hw_pin_tries, s.hw_usage_count, s.hw_data)

/-- The Counter applet's private slot: value, limit, limit-enabled flag,
operation counter. -/
def ctrSlot (s : CardState) : Nat × Nat × Bool × Nat :=
  (s.counter_value, s.counter_limit, s.counter_limit_enabled, s.counter_op_count)

/-- Every field the Counter instruction dispatch is not allowed to touch
(everything except `counter_value`, `counter_limit`,
`counter_limit_enabled`). -/
def nonCounterFields (s : CardState) :
    Option Bytes × Bytes × Bool × Nat × Nat × Nat :=
  (s.selected_aid, s.hw_data, s.hw_pin_validated, s.hw_pin_tries,
    s.hw_usage_count, s.counter_op_count)

/-- Every field the HelloWorld instruction dispatch is not allowed to touch
(everything except `hw_data`, `hw_pin_validated`, `hw_pin_tries`). -/
def nonHwFields (s : CardState) : Option Bytes × Nat × Nat × Bool × Nat :=
  (s.selected_aid, s.counter_value, s.counter_limit,
    s.counter_limit_enabled, s.counter_op_count)

/-- Every field SELECT is not allowed to touch (everything except
`selected_aid`). -/
def nonSelectFields (s : CardState) :
    Bytes × Bool × Nat × Nat × Nat × Nat × Bool × Nat :=
  (s.hw_data, s.hw_pin_validated, s.hw_pin_tries, s.hw_usage_count,
    s.counter_value, s.counter_limit, s.counter_limit_enabled,
    s.counter_op_count)

/-- The data field `process_apdu` extracts from the APDU bytes after the
4-byte header: the first remaining byte is `Lc`, the data is the next
`Lc` bytes (possibly truncated). -/
def dataField (tail : Bytes) : Bytes :=
  match tail with
  | [] => []
  | lc :: rest => rest.take lc

/-- The outbound framing step of `JCardSimClient.send_apdu` (pcsc-bridge.py)
and `vpcd-jcardsim-proxy.py`: `struct.pack('>H', len(cmd)) + cmd`.
`struct.error` on a length above 65535 is modelled as `none`. -/
def encode (cmd : Bytes) : Option Bytes :=
  if cmd.length < 65536 then
    some ([cmd.length / 256, cmd.length % 256] ++ cmd)
  else none

/-- The inbound framing step of `JCardSimClient.send_apdu` and of
`SocketServer._handle_client`: read exactly 2 length bytes (big-endian),
then exactly that many payload bytes; `none` models the truncated-stream
failure (`_recv_exact` returning `None`). -/
def decodeResponse (stream : Bytes) : Option Bytes :=
  match stream with
  | b1 :: b0 :: rest =>
    if b1 * 256 + b0 ≤ rest.length then some (rest.take (b1 * 256 + b0))
    else none
  | _ => none

end JavacardEmu

namespace JavacardEmu

/-! ## Theorems -/

/-- C2: a command shorter than 4 bytes is answered with the wrong-length
status word `6700`, no data bytes, and the whole card state (selected AID
and every applet slot) is returned unchanged. -/
theorem dispatch_short_command (s : CardState) (apdu : Bytes)
    (h : apdu.length < 4) :
    process_apdu s apdu = (s, some [0x67, 0x00]) := by
  simp [process_apdu, h]

/-- Witness for C2 at the 3-byte command `00 A4 04`. -/
theorem dispatch_short_command_witness :
    ([0x00, 0xA4, 0x04] : Bytes).length < 4 ∧
      process_apdu initialState [0x00, 0xA4, 0x04] =
        (initialState, some [0x67, 0x00]) :=
  ⟨by decide, dispatch_short_command initialState [0x00, 0xA4, 0x04] (by decide)⟩

/-- C8: for a command of length at most 65535, `encode` prefixes the
2-byte big-endian length, `decodeResponse` recovers exactly the command
from the encoded stream (the loopback echo round trip), and a stream that
ends before the 2 length bytes or before the announced payload is complete
decodes to a truncation failure, never to a partial result. -/
theorem codec_round_trip (cmd : Bytes) (h : cmd.length ≤ 65535) :
    encode cmd = some ([cmd.length / 256, cmd.length % 256] ++ cmd) ∧
    (encode cmd).bind decodeResponse = some cmd ∧
    (∀ s : Bytes, s.length ≤ 1 → decodeResponse s = none) ∧
    (∀ b1 b0 : Nat, ∀ rest : Bytes, rest.length < b1 * 256 + b0 →
      decodeResponse (b1 :: b0 :: rest) = none) := by
  have he : encode cmd = some ([cmd.length / 256, cmd.length % 256] ++ cmd) := by
    rw [encode, if_pos (by omega)]
  refine ⟨he, ?_, ?_, ?_⟩
  · rw [he]
    have hlm : cmd.length / 256 * 256 + cmd.length % 256 = cmd.length := by omega
    simp only [Option.some_bind, List.cons_append, List.nil_append,
      decodeResponse, hlm]
    rw [if_pos (le_refl _), List.take_length]
  · intro s hs
    match s with
    | [] => rfl
    | [b] => rfl
    | b1 :: b0 :: rest => simp at hs
  · intro b1 b0 rest hr
    simp only [decodeResponse]
    rw [if_neg (by omega)]

/-- Witness for C8 at the SELECT header `00 A4 04 00`. -/
theorem codec_round_trip_witness :
    ([0x00, 0xA4, 0x04, 0x00] : Bytes).length ≤ 65535 ∧
      (encode [0x00, 0xA4, 0x04, 0x00]).bind decodeResponse =
        some [0x00, 0xA4, 0x04, 0x00] :=
  ⟨by decide, (codec_round_trip [0x00, 0xA4, 0x04, 0x00] (by decide)).2.1⟩

/-- The Counter instruction dispatch touches only the Counter slot's
value, limit and flag: the selected AID, every HelloWorld field and the
operation counter pass through unchanged. -/
theorem process_counter_ins_frame (t : CardState) (i q1 q2 : Nat) (d : Bytes) :
    nonCounterFields ((process_counter_ins t i q1 q2 d).1) =
      nonCounterFields t := by
  rw [process_counter_ins]
  rcases eq_or_ne i 0x10 with h | h
  · rw [if_pos h]
  rw [if_neg h]
  rcases eq_or_ne i 0x11 with h1 | h1
  · rw [if_pos h1]
    try dsimp only
    repeat' split
    all_goals rfl
  rw [if_neg h1]
  rcases eq_or_ne i 0x12 with h2 | h2
  · rw [if_pos h2]
    try dsimp only
    repeat' split
    all_goals rfl
  rw [if_neg h2]
  rcases eq_or_ne i 0x13 with h3 | h3
  · rw [if_pos h3]
    rfl
  rw [if_neg h3]
  rcases eq_or_ne i 0x14 with h4 | h4
  · rw [if_pos h4]
    try dsimp only
    repeat' split
    all_goals rfl
  rw [if_neg h4]
  rcases eq_or_ne i 0x15 with h5 | h5
  · rw [if_pos h5]
    try dsimp only
    repeat' split
    all_goals rfl
  rw [if_neg h5]
  rcases eq_or_ne i 0x16 with h6 | h6
  · rw [if_pos h6]
  rw [if_neg h6]
  rcases eq_or_ne i 0x17 with h7 | h7
  · rw [if_pos h7]
    try dsimp only
    repeat' split
    all_goals rfl
  rw [if_neg h7]
  rcases eq_or_ne i 0x18 with h8 | h8
  · rw [if_pos h8]
    try dsimp only
    repeat' split
    all_goals rfl
  rw [if_neg h8]

/-- C9 counterexample: `SET-VALUE` with a 1-byte data field (malformed,
answered `6700` wrong-length) still increments the operation counter,
refuting "the operation counter is incremented iff the command is not
malformed". -/
theorem counter_op_count_malformed_counterexample :
    (process_apdu { initialState with selected_aid := some AID_COUNTER }
        [0x80, 0x14, 0x00, 0x00, 0x01, 0xAB]).2 = some [0x67, 0x00] ∧
    ((process_apdu { initialState with selected_aid := some AID_COUNTER }
        [0x80, 0x14, 0x00, 0x00, 0x01, 0xAB]).1).counter_op_count ≠
      ({ initialState with selected_aid := some AID_COUNTER } :
        CardState).counter_op_count := by
  constructor <;> decide

/-- Dispatch of a proprietary-class (CLA `80`) command that is neither
SELECT nor GET-RESPONSE: routed to the handler of the selected applet, or
answered `instruction-not-supported` when no known applet is selected. -/
theorem process_apdu_cla80 (s : CardState) (i q1 q2 : Nat) (tail : Bytes)
    (hi1 : i ≠ 0xA4) (hi2 : i ≠ 0xC0) :
    process_apdu s (0x80 :: i :: q1 :: q2 :: tail) =
      if s.selected_aid = some AID_HELLOWORLD then
        process_helloworld s i q1 q2 (dataField tail)
      else if s.selected_aid = some AID_COUNTER then
        process_counter s i q1 q2 (dataField tail)
      else (s, some [0x6D, 0x00]) := by
  have hlen : ¬ (0x80 :: i :: q1 :: q2 :: tail).length < 4 := by
    simp [Nat.succ_le_succ]
  have g0 : (0x80 :: i :: q1 :: q2 :: tail).getD 0 0 = 0x80 := rfl
  have g1 : (0x80 :: i :: q1 :: q2 :: tail).getD 1 0 = i := rfl
  have g2 : (0x80 :: i :: q1 :: q2 :: tail).getD 2 0 = q1 := rfl
  have g3 : (0x80 :: i :: q1 :: q2 :: tail).getD 3 0 = q2 := rfl
  have g4 : (0x80 :: i :: q1 :: q2 :: tail).getD 4 0 = tail.getD 0 0 := rfl
  have hdata :
      (if (0x80 :: i :: q1 :: q2 :: tail).length > 5 then
          ((0x80 :: i :: q1 :: q2 :: tail).drop 5).take
            (if (0x80 :: i :: q1 :: q2 :: tail).length > 4 then
              tail.getD 0 0 else 0)
        else []) = dataField tail := by
    match tail with
    | [] => rfl
    | lc :: [] =>
      simp [dataField]
    | lc :: r :: rest =>
      simp only [dataField, List.length_cons, List.getD_cons_zero]
      rw [if_pos (by omega), if_pos (by omega)]
      rfl
  simp only [process_apdu]
  rw [if_neg hlen]
  simp only [g0, g1, g2, g3, g4, hdata]
  rw [if_neg hi1, if_neg hi2]
  simp only [eq_self_iff_true, if_true]

/-- C9 (amended): every command dispatched to the Counter applet
(proprietary class `80`, not SELECT and not GET-RESPONSE, with the Counter
AID selected) increments the operation counter by exactly one — including
malformed commands answered `wrong-length` and unknown instructions
answered `instruction-not-supported`. -/
theorem counter_op_count_always_incremented (s : CardState)
    (i q1 q2 : Nat) (tail : Bytes)
    (hsel : s.selected_aid = some AID_COUNTER)
    (hi1 : i ≠ 0xA4) (hi2 : i ≠ 0xC0) :
    ((process_apdu s (0x80 :: i :: q1 :: q2 :: tail)).1).counter_op_count =
      s.counter_op_count + 1 := by
  rw [process_apdu_cla80 s i q1 q2 tail hi1 hi2, hsel]
  rw [if_neg (by decide : ¬ (some AID_COUNTER = some AID_HELLOWORLD)),
    if_pos rfl]
  have h := congrArg (fun x => x.2.2.2.2.2)
    (process_counter_ins_frame
      { s with counter_op_count := s.counter_op_count + 1 } i q1 q2
      (dataField tail))
  simpa [process_counter, nonCounterFields] using h

/-- Witness for the amended C9: a malformed `SET-LIMIT` (3-byte data) on a
fresh Counter selection increments the operation counter to 1. -/
theorem counter_op_count_always_incremented_witness :
    ((process_apdu { initialState with selected_aid := some AID_COUNTER }
        [0x80, 0x15, 0x01, 0x00, 0x03, 0x01, 0x02, 0x03]).1).counter_op_count =
      ({ initialState with selected_aid := some AID_COUNTER } :
          CardState).counter_op_count + 1 :=
  counter_op_count_always_incremented _ 0x15 0x01 0x00 [0x03, 0x01, 0x02, 0x03]
    rfl (by decide) (by decide)

/-- Dispatching a proprietary command while the HelloWorld AID is selected:
bump the usage counter, then run the HelloWorld instruction dispatch. -/
theorem process_apdu_hw (s : CardState) (i q1 q2 : Nat) (tail : Bytes)
    (hsel : s.selected_aid = some AID_HELLOWORLD)
    (hi1 : i ≠ 0xA4) (hi2 : i ≠ 0xC0) :
    process_apdu s (0x80 :: i :: q1 :: q2 :: tail) =
      process_helloworld_ins { s with hw_usage_count := s.hw_usage_count + 1 }
        i q1 q2 (dataField tail) := by
  rw [process_apdu_cla80 s i q1 q2 tail hi1 hi2, hsel, if_pos rfl,
    process_helloworld, hsel]

/-- Dispatching a proprietary command while the Counter AID is selected:
bump the operation counter, then run the Counter instruction dispatch. -/
theorem process_apdu_ctr (s : CardState) (i q1 q2 : Nat) (tail : Bytes)
    (hsel : s.selected_aid = some AID_COUNTER)
    (hi1 : i ≠ 0xA4) (hi2 : i ≠ 0xC0) :
    process_apdu s (0x80 :: i :: q1 :: q2 :: tail) =
      process_counter_ins { s with counter_op_count := s.counter_op_count + 1 }
        i q1 q2 (dataField tail) := by
  rw [process_apdu_cla80 s i q1 q2 tail hi1 hi2, hsel,
    if_neg (by decide : ¬ (some AID_COUNTER = some AID_HELLOWORLD)),
    if_pos rfl, process_counter, hsel]

/-- C10: PUT-DATA with an empty data field, while the PIN-validated flag is
set, answers `success` and leaves the stored data blob (and everything else
but the usage counter) unchanged: the handler only stores when the data
field is non-empty. -/
theorem put_data_empty_keeps_store (s : CardState) (q1 q2 : Nat)
    (hsel : s.selected_aid = some AID_HELLOWORLD)
    (hv : s.hw_pin_validated = true) :
    process_apdu s [0x80, 0x03, q1, q2, 0x00] =
      ({ s with hw_usage_count := s.hw_usage_count + 1 }, some [0x90, 0x00]) := by
  rw [show ([0x80, 0x03, q1, q2, 0x00] : Bytes) =
      0x80 :: 0x03 :: q1 :: q2 :: [0x00] from rfl,
    process_apdu_hw s 0x03 q1 q2 [0x00] hsel (by decide) (by decide)]
  simp [process_helloworld_ins, dataField, hv]

/-- Witness for C10: empty PUT-DATA on a validated state with `AB CD`
stored leaves the blob `AB CD` in place. -/
theorem put_data_empty_keeps_store_witness :
    process_apdu
        { initialState with selected_aid := some AID_HELLOWORLD
                            hw_data := [0xAB, 0xCD]
                            hw_pin_validated := true }
        [0x80, 0x03, 0x00, 0x00, 0x00] =
      ({ initialState with selected_aid := some AID_HELLOWORLD
                           hw_data := [0xAB, 0xCD]
                           hw_pin_validated := true
                           hw_usage_count := 1 }, some [0x90, 0x00]) :=
  put_data_empty_keeps_store _ 0x00 0x00 rfl rfl

/-- C4: PUT-DATA is PIN-gated.  Without the PIN-validated flag it answers
`security-status-not-satisfied` (`6985`) and stores nothing; with the flag
set it stores the (non-empty) data, answers `success`, and a following
GET-DATA returns exactly the stored bytes before `9000`. -/
theorem put_data_pin_gating (s : CardState) (q1 q2 : Nat) (d : Bytes)
    (hsel : s.selected_aid = some AID_HELLOWORLD) :
    (s.hw_pin_validated = false →
      process_apdu s (0x80 :: 0x03 :: q1 :: q2 :: d.length :: d) =
        ({ s with hw_usage_count := s.hw_usage_count + 1 },
          some [0x69, 0x85])) ∧
    (s.hw_pin_validated = true → d ≠ [] →
      process_apdu s (0x80 :: 0x03 :: q1 :: q2 :: d.length :: d) =
        ({ s with hw_data := d, hw_usage_count := s.hw_usage_count + 1 },
          some [0x90, 0x00]) ∧
      process_apdu
          { s with hw_data := d, hw_usage_count := s.hw_usage_count + 1 }
          [0x80, 0x02, 0x00, 0x00] =
        ({ s with hw_data := d, hw_usage_count := s.hw_usage_count + 1 + 1 },
          some (d ++ [0x90, 0x00]))) := by
  have hdf : dataField (d.length :: d) = d := by
    simp [dataField]
  constructor
  · intro hv
    rw [process_apdu_hw s 0x03 q1 q2 (d.length :: d) hsel (by decide)
      (by decide), hdf]
    simp [process_helloworld_ins, hv]
  · intro hv hd
    constructor
    · rw [process_apdu_hw s 0x03 q1 q2 (d.length :: d) hsel (by decide)
        (by decide), hdf]
      simp [process_helloworld_ins, hv, hd]
    · rw [process_apdu_hw
        { s with hw_data := d, hw_usage_count := s.hw_usage_count + 1 }
        0x02 0x00 0x00 [] hsel (by decide) (by decide)]
      simp [process_helloworld_ins, dataField, hd]

/-- Witness for C4: on a fresh HelloWorld selection, PUT-DATA `48 65` is
refused with `6985` before PIN validation; after validation it stores and
GET-DATA returns `48 65 90 00`. -/
theorem put_data_pin_gating_witness :
    (process_apdu { initialState with selected_aid := some AID_HELLOWORLD }
        (0x80 :: 0x03 :: 0x00 :: 0x00 :: [0x48, 0x65].length :: [0x48, 0x65]) =
      ({ initialState with selected_aid := some AID_HELLOWORLD
                           hw_usage_count := 1 }, some [0x69, 0x85])) ∧
    (process_apdu
        { initialState with selected_aid := some AID_HELLOWORLD
                            hw_pin_validated := true }
        (0x80 :: 0x03 :: 0x00 :: 0x00 :: [0x48, 0x65].length :: [0x48, 0x65]) =
      ({ initialState with selected_aid := some AID_HELLOWORLD
                           hw_pin_validated := true
                           hw_data := [0x48, 0x65]
                           hw_usage_count := 1 }, some [0x90, 0x00])) :=
  ⟨(put_data_pin_gating _ 0x00 0x00 [0x48, 0x65] rfl).1 rfl,
    ((put_data_pin_gating _ 0x00 0x00 [0x48, 0x65] rfl).2 rfl
      (by decide)).1⟩

/-- For a tries value below 16, the wrong-PIN status byte `C0 | tries` is a
legal byte and its low nibble is exactly the tries value. -/
theorem lor_c0_nibble (t : Nat) (h : t < 16) :
    0xC0 ||| t < 256 ∧ (0xC0 ||| t) % 16 = t := by
  interval_cases t <;> decide

/-- C3: VERIFY-PIN.  With the fixed reference PIN `31 32 33 34` it always
answers `success`, sets the PIN-validated flag and resets the try counter
to 3.  With any other data field `d` — of any length, empty included —
(and the invariant-respecting bound `tries ≤ 3`) it decrements the try
counter, floored at 0, and answers `63 Cx` where the low nibble of the
second byte is the remaining tries; from 3 tries, three consecutive wrong
values drive the counter through 2, 1, 0 with replies `63C2`, `63C1`,
`63C0`. -/
theorem verify_pin_behavior (s : CardState) (q1 q2 : Nat) (d : Bytes)
    (hsel : s.selected_aid = some AID_HELLOWORLD)
    (hwr : d ≠ referencePin) :
    (process_apdu s (0x80 :: 0x20 :: q1 :: q2 :: 0x04 :: referencePin) =
      ({ s with hw_pin_validated := true
                hw_pin_tries := 3
                hw_usage_count := s.hw_usage_count + 1 },
        some [0x90, 0x00])) ∧
    (s.hw_pin_tries ≤ 3 →
      process_apdu s (0x80 :: 0x20 :: q1 :: q2 :: d.length :: d) =
        ({ s with hw_pin_tries := s.hw_pin_tries - 1
                  hw_usage_count := s.hw_usage_count + 1 },
          some [0x63, 0xC0 ||| (s.hw_pin_tries - 1)]) ∧
      (0xC0 ||| (s.hw_pin_tries - 1)) % 16 = s.hw_pin_tries - 1) ∧
    (s.hw_pin_tries = 3 →
      (process_apdu s (0x80 :: 0x20 :: q1 :: q2 :: d.length :: d)).2 =
        some [0x63, 0xC2] ∧
      ((process_apdu s
          (0x80 :: 0x20 :: q1 :: q2 :: d.length :: d)).1).hw_pin_tries
        = 2 ∧
      (process_apdu (process_apdu s
          (0x80 :: 0x20 :: q1 :: q2 :: d.length :: d)).1
          (0x80 :: 0x20 :: q1 :: q2 :: d.length :: d)).2 =
        some [0x63, 0xC1] ∧
      ((process_apdu (process_apdu s
          (0x80 :: 0x20 :: q1 :: q2 :: d.length :: d)).1
          (0x80 :: 0x20 :: q1 :: q2 :: d.length :: d)).1).hw_pin_tries = 1 ∧
      (process_apdu (process_apdu (process_apdu s
          (0x80 :: 0x20 :: q1 :: q2 :: d.length :: d)).1
          (0x80 :: 0x20 :: q1 :: q2 :: d.length :: d)).1
          (0x80 :: 0x20 :: q1 :: q2 :: d.length :: d)).2 =
        some [0x63, 0xC0] ∧
      ((process_apdu (process_apdu (process_apdu s
          (0x80 :: 0x20 :: q1 :: q2 :: d.length :: d)).1
          (0x80 :: 0x20 :: q1 :: q2 :: d.length :: d)).1
          (0x80 :: 0x20 :: q1 :: q2 :: d.length :: d)).1).hw_pin_tries
        = 0) := by
  have hdf : dataField (d.length :: d) = d := by
    show d.take d.length = d
    exact List.take_length d
  have step : ∀ t : CardState, t.selected_aid = some AID_HELLOWORLD →
      t.hw_pin_tries ≤ 3 →
      process_apdu t (0x80 :: 0x20 :: q1 :: q2 :: d.length :: d) =
        ({ t with hw_pin_tries := t.hw_pin_tries - 1
                  hw_usage_count := t.hw_usage_count + 1 },
          some [0x63, 0xC0 ||| (t.hw_pin_tries - 1)]) := by
    intro t htsel htr
    have hz := (lor_c0_nibble (t.hw_pin_tries - 1) (by omega)).1
    have hb : bytesOf [0x63, 0xC0 ||| (t.hw_pin_tries - 1)] =
        some [0x63, 0xC0 ||| (t.hw_pin_tries - 1)] := by
      rw [bytesOf, if_pos]
      simp only [List.all_cons, List.all_nil, Bool.and_true, Bool.and_eq_true,
        decide_eq_true_eq]
      exact ⟨by norm_num, hz⟩
    rw [process_apdu_hw t 0x20 q1 q2 (d.length :: d) htsel (by decide)
      (by decide), hdf]
    simp [process_helloworld_ins, hwr, hb]
  refine ⟨?_, ?_, ?_⟩
  · rw [process_apdu_hw s 0x20 q1 q2 (0x04 :: referencePin) hsel (by decide)
      (by decide)]
    simp [process_helloworld_ins, dataField, referencePin]
  · intro htr
    exact ⟨step s hsel htr, (lor_c0_nibble _ (by omega)).2⟩
  · intro h3
    have e1 := step s hsel (by omega)
    rw [e1]
    have e2 := step
      { s with hw_pin_tries := s.hw_pin_tries - 1
               hw_usage_count := s.hw_usage_count + 1 }
      hsel (Nat.le_trans (Nat.sub_le _ _) (by omega))
    rw [e2]
    have e3 := step
      { s with hw_pin_tries := s.hw_pin_tries - 1 - 1
               hw_usage_count := s.hw_usage_count + 1 + 1 }
      hsel (Nat.le_trans (Nat.sub_le _ _) (Nat.le_trans (Nat.sub_le _ _)
        (by omega)))
    rw [e3]
    rw [h3]
    refine ⟨?_, ?_, ?_, ?_, ?_, ?_⟩ <;> simp

/-- Witness for C3 on a fresh HelloWorld selection (tries = 3): correct PIN
succeeds; the wrong 4-byte value `39 39 39 39` and a wrong empty data
field both decrement and answer `63 C2`. -/
theorem verify_pin_behavior_witness :
    (process_apdu { initialState with selected_aid := some AID_HELLOWORLD }
        (0x80 :: 0x20 :: 0x00 :: 0x00 :: 0x04 :: referencePin) =
      ({ initialState with selected_aid := some AID_HELLOWORLD
                           hw_pin_validated := true
                           hw_usage_count := 1 }, some [0x90, 0x00])) ∧
    (process_apdu { initialState with selected_aid := some AID_HELLOWORLD }
        (0x80 :: 0x20 :: 0x00 :: 0x00 :: 0x04 :: [0x39, 0x39, 0x39, 0x39])).2 =
      some [0x63, 0xC2] ∧
    (process_apdu { initialState with selected_aid := some AID_HELLOWORLD }
        [0x80, 0x20, 0x00, 0x00, 0x00]).2 = some [0x63, 0xC2] :=
  ⟨(verify_pin_behavior _ 0x00 0x00 [0x39, 0x39, 0x39, 0x39] rfl
      (by decide)).1,
    ((verify_pin_behavior _ 0x00 0x00 [0x39, 0x39, 0x39, 0x39] rfl
      (by decide)).2.2 rfl).1,
    ((verify_pin_behavior _ 0x00 0x00 [] rfl (by decide)).2.2 rfl).1⟩

/-- C5: counter bounds are atomic.  INCREMENT/ADD whose result would pass
an enabled limit or overflow 32 bits answer `6985` with the counter value,
limit and flag unchanged (only the always-bumped operation counter moves);
DECREMENT/SUBTRACT that would go below 0 likewise; otherwise the new value
is committed and echoed big-endian before `9000`.  The 2-byte operand is
read big-endian. -/
theorem counter_bounds_atomic (s : CardState) (p1 q2 b0 b1 : Nat)
    (hsel : s.selected_aid = some AID_COUNTER) :
    ((s.counter_limit_enabled = true ∧
        s.counter_value + (if p1 > 0 then p1 else 1) > s.counter_limit) ∨
        s.counter_value + (if p1 > 0 then p1 else 1) > 0xFFFFFFFF →
      process_apdu s [0x80, 0x11, p1, q2] =
        ({ s with counter_op_count := s.counter_op_count + 1 },
          some [0x69, 0x85])) ∧
    ((s.counter_limit_enabled = true →
        s.counter_value + (if p1 > 0 then p1 else 1) ≤ s.counter_limit) →
      s.counter_value + (if p1 > 0 then p1 else 1) ≤ 0xFFFFFFFF →
      process_apdu s [0x80, 0x11, p1, q2] =
        ({ s with counter_value := s.counter_value + (if p1 > 0 then p1 else 1)
                  counter_op_count := s.counter_op_count + 1 },
          some (bytesBE 4 (s.counter_value + (if p1 > 0 then p1 else 1)) ++
            [0x90, 0x00]))) ∧
    ((s.counter_limit_enabled = true ∧
        s.counter_value + fromBytesBE [b0, b1] > s.counter_limit) ∨
        s.counter_value + fromBytesBE [b0, b1] > 0xFFFFFFFF →
      process_apdu s [0x80, 0x17, p1, q2, 0x02, b0, b1] =
        ({ s with counter_op_count := s.counter_op_count + 1 },
          some [0x69, 0x85])) ∧
    ((s.counter_limit_enabled = true →
        s.counter_value + fromBytesBE [b0, b1] ≤ s.counter_limit) →
      s.counter_value + fromBytesBE [b0, b1] ≤ 0xFFFFFFFF →
      process_apdu s [0x80, 0x17, p1, q2, 0x02, b0, b1] =
        ({ s with counter_value := s.counter_value + fromBytesBE [b0, b1]
                  counter_op_count := s.counter_op_count + 1 },
          some (bytesBE 4 (s.counter_value + fromBytesBE [b0, b1]) ++
            [0x90, 0x00]))) ∧
    (s.counter_value < (if p1 > 0 then p1 else 1) →
      process_apdu s [0x80, 0x12, p1, q2] =
        ({ s with counter_op_count := s.counter_op_count + 1 },
          some [0x69, 0x85])) ∧
    ((if p1 > 0 then p1 else 1) ≤ s.counter_value →
      s.counter_value ≤ 0xFFFFFFFF →
      process_apdu s [0x80, 0x12, p1, q2] =
        ({ s with
            counter_value := s.counter_value - (if p1 > 0 then p1 else 1)
            counter_op_count := s.counter_op_count + 1 },
          some (bytesBE 4 (s.counter_value - (if p1 > 0 then p1 else 1)) ++
            [0x90, 0x00]))) ∧
    (s.counter_value < fromBytesBE [b0, b1] →
      process_apdu s [0x80, 0x18, p1, q2, 0x02, b0, b1] =
        ({ s with counter_op_count := s.counter_op_count + 1 },
          some [0x69, 0x85])) ∧
    (fromBytesBE [b0, b1] ≤ s.counter_value →
      s.counter_value ≤ 0xFFFFFFFF →
      process_apdu s [0x80, 0x18, p1, q2, 0x02, b0, b1] =
        ({ s with counter_value := s.counter_value - fromBytesBE [b0, b1]
                  counter_op_count := s.counter_op_count + 1 },
          some (bytesBE 4 (s.counter_value - fromBytesBE [b0, b1]) ++
            [0x90, 0x00]))) ∧
    fromBytesBE [b0, b1] = b0 * 256 + b1 := by
  have hp : (256 : Nat) ^ 4 = 4294967296 := by norm_num
  have einc : process_apdu s [0x80, 0x11, p1, q2] =
      (if s.counter_limit_enabled ∧
          s.counter_value + (if p1 > 0 then p1 else 1) > s.counter_limit then
        ({ s with counter_op_count := s.counter_op_count + 1 },
          some [0x69, 0x85])
      else if s.counter_value + (if p1 > 0 then p1 else 1) > 0xFFFFFFFF then
        ({ s with counter_op_count := s.counter_op_count + 1 },
          some [0x69, 0x85])
      else
        ({ s with counter_value := s.counter_value + (if p1 > 0 then p1 else 1)
                  counter_op_count := s.counter_op_count + 1 },
          (intToBytes (s.counter_value + (if p1 > 0 then p1 else 1)) 4).map
            (· ++ [0x90, 0x00]))) := by
    rw [process_apdu_ctr s 0x11 p1 q2 [] hsel (by decide) (by decide)]
    rfl
  have eadd : process_apdu s [0x80, 0x17, p1, q2, 0x02, b0, b1] =
      (if s.counter_limit_enabled ∧
          s.counter_value + fromBytesBE [b0, b1] > s.counter_limit then
        ({ s with counter_op_count := s.counter_op_count + 1 },
          some [0x69, 0x85])
      else if s.counter_value + fromBytesBE [b0, b1] > 0xFFFFFFFF then
        ({ s with counter_op_count := s.counter_op_count + 1 },
          some [0x69, 0x85])
      else
        ({ s with counter_value := s.counter_value + fromBytesBE [b0, b1]
                  counter_op_count := s.counter_op_count + 1 },
          (intToBytes (s.counter_value + fromBytesBE [b0, b1]) 4).map
            (· ++ [0x90, 0x00]))) := by
    rw [process_apdu_ctr s 0x17 p1 q2 [0x02, b0, b1] hsel (by decide)
      (by decide)]
    rfl
  have edec : process_apdu s [0x80, 0x12, p1, q2] =
      (if s.counter_value < (if p1 > 0 then p1 else 1) then
        ({ s with counter_op_count := s.counter_op_count + 1 },
          some [0x69, 0x85])
      else
        ({ s with
            counter_value := s.counter_value - (if p1 > 0 then p1 else 1)
            counter_op_count := s.counter_op_count + 1 },
          (intToBytes (s.counter_value - (if p1 > 0 then p1 else 1)) 4).map
            (· ++ [0x90, 0x00]))) := by
    rw [process_apdu_ctr s 0x12 p1 q2 [] hsel (by decide) (by decide)]
    rfl
  have esub : process_apdu s [0x80, 0x18, p1, q2, 0x02, b0, b1] =
      (if s.counter_value < fromBytesBE [b0, b1] then
        ({ s with counter_op_count := s.counter_op_count + 1 },
          some [0x69, 0x85])
      else
        ({ s with counter_value := s.counter_value - fromBytesBE [b0, b1]
                  counter_op_count := s.counter_op_count + 1 },
          (intToBytes (s.counter_value - fromBytesBE [b0, b1]) 4).map
            (· ++ [0x90, 0x00]))) := by
    rw [process_apdu_ctr s 0x18 p1 q2 [0x02, b0, b1] hsel (by decide)
      (by decide)]
    rfl
  refine ⟨?_, ?_, ?_, ?_, ?_, ?_, ?_, ?_, ?_⟩
  · intro h
    rw [einc]
    rcases h with h | h
    · rw [if_pos ⟨h.1, h.2⟩]
    · by_cases hc : s.counter_limit_enabled = true ∧
        s.counter_value + (if p1 > 0 then p1 else 1) > s.counter_limit
      · rw [if_pos hc]
      · rw [if_neg hc, if_pos h]
  · intro h1 h2
    have hin : s.counter_value + (if p1 > 0 then p1 else 1) < 256 ^ 4 := by
      rw [hp]; omega
    rw [einc, if_neg (fun hc => absurd hc.2 (not_lt.mpr (h1 hc.1))),
      if_neg (not_lt.mpr h2), intToBytes, if_pos hin]
    rfl
  · intro h
    rw [eadd]
    rcases h with h | h
    · rw [if_pos ⟨h.1, h.2⟩]
    · by_cases hc : s.counter_limit_enabled = true ∧
        s.counter_value + fromBytesBE [b0, b1] > s.counter_limit
      · rw [if_pos hc]
      · rw [if_neg hc, if_pos h]
  · intro h1 h2
    have hin : s.counter_value + fromBytesBE [b0, b1] < 256 ^ 4 := by
      rw [hp]; omega
    rw [eadd, if_neg (fun hc => absurd hc.2 (not_lt.mpr (h1 hc.1))),
      if_neg (not_lt.mpr h2), intToBytes, if_pos hin]
    rfl
  · intro h
    rw [edec, if_pos h]
  · intro h1 h2
    have hin : s.counter_value - (if p1 > 0 then p1 else 1) < 256 ^ 4 := by
      rw [hp]; omega
    rw [edec, if_neg (not_lt.mpr h1), intToBytes, if_pos hin]
    rfl
  · intro h
    rw [esub, if_pos h]
  · intro h1 h2
    have hin : s.counter_value - fromBytesBE [b0, b1] < 256 ^ 4 := by
      rw [hp]; omega
    rw [esub, if_neg (not_lt.mpr h1), intToBytes, if_pos hin]
    rfl
  · show List.foldl _ 0 [b0, b1] = _
    simp [List.foldl]

/-- Witness for C5: with value 10, limit 10 enabled, INCREMENT by 5 is
rejected with `6985` and only the operation counter moves; with the limit
disabled the same INCREMENT commits 15. -/
theorem counter_bounds_atomic_witness :
    (process_apdu
        { initialState with selected_aid := some AID_COUNTER
                            counter_value := 10
                            counter_limit := 10
                            counter_limit_enabled := true }
        [0x80, 0x11, 0x05, 0x00] =
      ({ initialState with selected_aid := some AID_COUNTER
                           counter_value := 10
                           counter_limit := 10
                           counter_limit_enabled := true
                           counter_op_count := 1 }, some [0x69, 0x85])) ∧
    (process_apdu
        { initialState with selected_aid := some AID_COUNTER
                            counter_value := 10 }
        [0x80, 0x11, 0x05, 0x00] =
      ({ initialState with selected_aid := some AID_COUNTER
                           counter_value := 15
                           counter_op_count := 1 },
        some ([0x00, 0x00, 0x00, 0x0F] ++ [0x90, 0x00]))) := by
  constructor
  · exact (counter_bounds_atomic _ 0x05 0x00 0 0 rfl).1 (Or.inl ⟨rfl, by decide⟩)
  · have h := ((counter_bounds_atomic
      { initialState with selected_aid := some AID_COUNTER
                          counter_value := 10 }
      0x05 0x00 0 0 rfl).2.1 (fun hc => by cases hc) (by decide))
    rw [h]
    rfl

/-- Any response built as `payload ++ [sw1, sw2]` under `Option.map` is at
least 2 bytes long. -/
theorem resp_concat_len (o : Option Bytes) (c0 c1 : Nat) (r : Bytes)
    (h : o.map (· ++ [c0, c1]) = some r) : 2 ≤ r.length := by
  rcases o with _ | y
  · simp at h
  · simp only [Option.map_some', Option.some.injEq] at h
    subst h
    simp only [List.length_append, List.length_cons, List.length_nil]
    omega

/-- When `bytes([...])` succeeds it returns exactly its argument. -/
theorem bytesOf_eq_some {l y : List Nat} (h : bytesOf l = some y) : l = y := by
  rw [bytesOf] at h
  split at h
  · exact Option.some.inj h
  · exact Option.noConfusion h

/-- Every reply `_handle_select` actually produces ends in the 2-byte
status word. -/
theorem handle_select_resp_len (s : CardState) (apdu : Bytes) (r : Bytes)
    (h : (handle_select s apdu).2 = some r) : 2 ≤ r.length := by
  rw [handle_select] at h
  split at h
  · exact resp_concat_len (some []) 0x67 0x00 r h
  dsimp only at h
  split at h
  · exact resp_concat_len (some []) 0x67 0x00 r h
  rcases hb : bytesOf [0x6F,
      ((apdu.drop 5).take (apdu.getD 4 0)).length + 2, 0x84,
      ((apdu.drop 5).take (apdu.getD 4 0)).length] with _ | y
  · rw [hb] at h
    simp at h
  · rw [hb] at h
    simp only [Option.map_some', Option.some.injEq] at h
    subst h
    simp only [List.length_append, List.length_cons, List.length_nil]
    omega

/-- Every reply the HelloWorld instruction dispatch actually produces is at
least 2 bytes long. -/
theorem process_helloworld_ins_resp_len (t : CardState) (i q1 q2 : Nat)
    (d : Bytes) (r : Bytes)
    (h : (process_helloworld_ins t i q1 q2 d).2 = some r) : 2 ≤ r.length := by
  rw [process_helloworld_ins] at h
  rcases eq_or_ne i 0x00 with h0 | h0
  · rw [if_pos h0] at h
    exact resp_concat_len (some helloMsg) 0x90 0x00 r h
  rw [if_neg h0] at h
  rcases eq_or_ne i 0x01 with h1 | h1
  · rw [if_pos h1] at h
    split at h
    · exact resp_concat_len (some d) 0x90 0x00 r h
    · exact resp_concat_len (some []) 0x90 0x00 r h
  rw [if_neg h1] at h
  rcases eq_or_ne i 0x02 with h2 | h2
  · rw [if_pos h2] at h
    split at h
    · exact resp_concat_len (some t.hw_data) 0x90 0x00 r h
    · exact resp_concat_len (some []) 0x69 0x85 r h
  rw [if_neg h2] at h
  rcases eq_or_ne i 0x03 with h3 | h3
  · rw [if_pos h3] at h
    split at h
    · exact resp_concat_len (some []) 0x69 0x85 r h
    split at h
    · exact resp_concat_len (some []) 0x90 0x00 r h
    · exact resp_concat_len (some []) 0x90 0x00 r h
  rw [if_neg h3] at h
  rcases eq_or_ne i 0x20 with h4 | h4
  · rw [if_pos h4] at h
    split at h
    · exact resp_concat_len (some []) 0x90 0x00 r h
    · dsimp only at h
      rcases hb : bytesOf [0x63, 0xC0 ||| (t.hw_pin_tries - 1)] with _ | y
      · rw [hb] at h
        simp at h
      · rw [hb] at h
        simp only [Option.some.injEq] at h
        subst h
        obtain rfl := bytesOf_eq_some hb
        simp
  rw [if_neg h4] at h
  rcases eq_or_ne i 0xF0 with h5 | h5
  · rw [if_pos h5] at h
    dsimp only at h
    exact resp_concat_len _ 0x90 0x00 r h
  rw [if_neg h5] at h
  exact resp_concat_len (some []) 0x6D 0x00 r h

/-- The `GET-INFO` reply layout, when all three `to_bytes` calls succeed,
ends in the 2-byte status word. -/
theorem bind3_sw_len (o1 o2 o3 : Option Bytes) (flag : Nat) (r : Bytes)
    (h : (do
        let a ← o1
        let b ← o2
        let c ← o3
        pure (a ++ b ++ [flag] ++ c ++ [0x90, 0x00])) = some r) :
    2 ≤ r.length := by
  rcases o1 with _ | a
  · exact Option.noConfusion h
  rcases o2 with _ | b
  · exact Option.noConfusion h
  rcases o3 with _ | c
  · exact Option.noConfusion h
  · have hr := Option.some.inj h
    subst hr
    simp only [List.length_append, List.length_cons, List.length_nil]
    omega

/-- Every reply the Counter instruction dispatch actually produces is at
least 2 bytes long. -/
theorem process_counter_ins_resp_len (t : CardState) (i q1 q2 : Nat)
    (d : Bytes) (r : Bytes)
    (h : (process_counter_ins t i q1 q2 d).2 = some r) : 2 ≤ r.length := by
  rw [process_counter_ins] at h
  rcases eq_or_ne i 0x16 with h6 | h6
  · rw [if_neg (by rw [h6]; decide), if_neg (by rw [h6]; decide),
      if_neg (by rw [h6]; decide), if_neg (by rw [h6]; decide),
      if_neg (by rw [h6]; decide), if_neg (by rw [h6]; decide),
      if_pos h6] at h
    exact bind3_sw_len _ _ _ _ r h
  rcases eq_or_ne i 0x10 with h0 | h0
  · rw [if_pos h0] at h
    exact resp_concat_len _ 0x90 0x00 r h
  rw [if_neg h0] at h
  rcases eq_or_ne i 0x11 with h1 | h1
  · rw [if_pos h1] at h
    dsimp only at h
    repeat' split at h
    all_goals
      first
      | exact resp_concat_len (some []) 0x69 0x85 r h
      | exact resp_concat_len _ 0x90 0x00 r h
  rw [if_neg h1] at h
  rcases eq_or_ne i 0x12 with h2 | h2
  · rw [if_pos h2] at h
    dsimp only at h
    repeat' split at h
    all_goals
      first
      | exact resp_concat_len (some []) 0x69 0x85 r h
      | exact resp_concat_len _ 0x90 0x00 r h
  rw [if_neg h2] at h
  rcases eq_or_ne i 0x13 with h3 | h3
  · rw [if_pos h3] at h
    exact resp_concat_len (some []) 0x90 0x00 r h
  rw [if_neg h3] at h
  rcases eq_or_ne i 0x14 with h4 | h4
  · rw [if_pos h4] at h
    try dsimp only at h
    repeat' split at h
    all_goals
      first
      | exact resp_concat_len (some []) 0x67 0x00 r h
      | exact resp_concat_len (some []) 0x69 0x85 r h
      | exact resp_concat_len (some []) 0x90 0x00 r h
  rw [if_neg h4] at h
  rcases eq_or_ne i 0x15 with h5 | h5
  · rw [if_pos h5] at h
    repeat' split at h
    all_goals
      first
      | exact resp_concat_len (some []) 0x67 0x00 r h
      | exact resp_concat_len (some []) 0x90 0x00 r h
  rw [if_neg h5] at h
  rw [if_neg h6] at h
  rcases eq_or_ne i 0x17 with h7 | h7
  · rw [if_pos h7] at h
    try dsimp only at h
    repeat' split at h
    all_goals
      first
      | exact resp_concat_len (some []) 0x67 0x00 r h
      | exact resp_concat_len (some []) 0x69 0x85 r h
      | exact resp_concat_len _ 0x90 0x00 r h
  rw [if_neg h7] at h
  rcases eq_or_ne i 0x18 with h8 | h8
  · rw [if_pos h8] at h
    try dsimp only at h
    repeat' split at h
    all_goals
      first
      | exact resp_concat_len (some []) 0x67 0x00 r h
      | exact resp_concat_len (some []) 0x69 0x85 r h
      | exact resp_concat_len _ 0x90 0x00 r h
  rw [if_neg h8] at h
  exact resp_concat_len (some []) 0x6D 0x00 r h

set_option maxRecDepth 8000 in
/-- C6 counterexample: dispatch does not always terminate with a response —
a SELECT carrying a declared AID length of 254 makes `_handle_select` raise
(`bytes([0x6F, len(aid)+2, ...])` with `len(aid)+2 = 256`), so the engine
produces no response at all for this well-formed input APDU in the initial
(reachable) state. -/
theorem dispatch_raises_counterexample :
    (process_apdu initialState
        ([0x00, 0xA4, 0x04, 0x00, 0xFE] ++ List.replicate 0xFE 0x00)).2 =
      none := by
  rfl

/-- C6 (amended): every response the engine's dispatch actually produces
(for any state and any input APDU) is at least 2 bytes long, ending in the
2-byte status word; dispatch can instead raise — on SELECT with declared
AID length ≥ 254, or GET-INFO once a `to_bytes` width is exceeded — in
which case no response is produced. -/
theorem engine_response_min_length (s : CardState) (apdu : Bytes) (r : Bytes)
    (h : (process_apdu s apdu).2 = some r) : 2 ≤ r.length := by
  rw [process_apdu] at h
  split at h
  · exact resp_concat_len (some []) 0x67 0x00 r h
  dsimp only at h
  split at h
  · exact handle_select_resp_len s apdu r h
  split at h
  · exact resp_concat_len (some []) 0x90 0x00 r h
  split at h
  · split at h
    · rw [process_helloworld] at h
      exact process_helloworld_ins_resp_len _ _ _ _ _ r h
    split at h
    · rw [process_counter] at h
      exact process_counter_ins_resp_len _ _ _ _ _ r h
    · exact resp_concat_len (some []) 0x6D 0x00 r h
  · exact resp_concat_len (some []) 0x6D 0x00 r h

/-- Witness for the amended C6: GET-RESPONSE on the initial state produces
`9000`, of length 2. -/
theorem engine_response_min_length_witness :
    (process_apdu initialState [0x00, 0xC0, 0x00, 0x00]).2 =
      some [0x90, 0x00] ∧ 2 ≤ ([0x90, 0x00] : Bytes).length :=
  ⟨rfl, engine_response_min_length initialState [0x00, 0xC0, 0x00, 0x00]
    [0x90, 0x00] rfl⟩

/-- Extract HelloWorld-slot preservation from a `nonCounterFields`
equality. -/
theorem hwSlot_of_nonCounterFields {u t : CardState}
    (h : nonCounterFields u = nonCounterFields t) : hwSlot u = hwSlot t := by
  simp only [nonCounterFields, Prod.mk.injEq] at h
  obtain ⟨h1, h2, h3, h4, h5, h6⟩ := h
  simp only [hwSlot, h2, h3, h4, h5]

/-- Extract Counter-slot preservation from a `nonHwFields` equality. -/
theorem ctrSlot_of_nonHwFields {u t : CardState}
    (h : nonHwFields u = nonHwFields t) : ctrSlot u = ctrSlot t := by
  simp only [nonHwFields, Prod.mk.injEq] at h
  obtain ⟨h1, h2, h3, h4, h5⟩ := h
  simp only [ctrSlot, h2, h3, h4, h5]

/-- Extract both slot preservations from a `nonSelectFields` equality. -/
theorem slots_of_nonSelectFields {u t : CardState}
    (h : nonSelectFields u = nonSelectFields t) :
    hwSlot u = hwSlot t ∧ ctrSlot u = ctrSlot t := by
  simp only [nonSelectFields, Prod.mk.injEq] at h
  obtain ⟨h1, h2, h3, h4, h5, h6, h7, h8⟩ := h
  exact ⟨by simp only [hwSlot, h1, h2, h3, h4],
    by simp only [ctrSlot, h5, h6, h7, h8]⟩

/-- `_handle_select` touches no field but `selected_aid`. -/
theorem handle_select_frame (s : CardState) (apdu : Bytes) :
    nonSelectFields ((handle_select s apdu).1) = nonSelectFields s := by
  rw [handle_select]
  split
  · rfl
  dsimp only
  split
  · rfl
  · rfl

/-- The HelloWorld instruction dispatch touches only the HelloWorld slot's
stored data, PIN flag and PIN tries: the selected AID and every Counter
field pass through unchanged. -/
theorem process_helloworld_ins_frame (t : CardState) (i q1 q2 : Nat)
    (d : Bytes) :
    nonHwFields ((process_helloworld_ins t i q1 q2 d).1) = nonHwFields t := by
  rw [process_helloworld_ins]
  rcases eq_or_ne i 0x00 with h0 | h0
  · rw [if_pos h0]
  rw [if_neg h0]
  rcases eq_or_ne i 0x01 with h1 | h1
  · rw [if_pos h1]
    split <;> rfl
  rw [if_neg h1]
  rcases eq_or_ne i 0x02 with h2 | h2
  · rw [if_pos h2]
    split <;> rfl
  rw [if_neg h2]
  rcases eq_or_ne i 0x03 with h3 | h3
  · rw [if_pos h3]
    repeat' split
    all_goals rfl
  rw [if_neg h3]
  rcases eq_or_ne i 0x20 with h4 | h4
  · rw [if_pos h4]
    split <;> rfl
  rw [if_neg h4]
  rcases eq_or_ne i 0xF0 with h5 | h5
  · rw [if_pos h5]
  rw [if_neg h5]

/-- When the HelloWorld applet is not selected, a dispatch step cannot
change the HelloWorld slot. -/
theorem step_hw_frame (s : CardState) (a : Bytes)
    (h : s.selected_aid ≠ some AID_HELLOWORLD) :
    hwSlot (process_apdu s a).1 = hwSlot s := by
  rw [process_apdu]
  split
  · rfl
  dsimp only
  repeat' split
  all_goals
    first
    | rfl
    | exact (slots_of_nonSelectFields (handle_select_frame s a)).1
    | exact absurd (by assumption) h
    | (rw [process_counter]
       exact (hwSlot_of_nonCounterFields
         (process_counter_ins_frame _ _ _ _ _)).trans rfl)

/-- When the Counter applet is not selected, a dispatch step cannot change
the Counter slot. -/
theorem step_ctr_frame (s : CardState) (a : Bytes)
    (h : s.selected_aid ≠ some AID_COUNTER) :
    ctrSlot (process_apdu s a).1 = ctrSlot s := by
  rw [process_apdu]
  split
  · rfl
  dsimp only
  repeat' split
  all_goals
    first
    | rfl
    | exact (slots_of_nonSelectFields (handle_select_frame s a)).2
    | exact absurd (by assumption) h
    | (rw [process_helloworld]
       exact (ctrSlot_of_nonHwFields
         (process_helloworld_ins_frame _ _ _ _ _)).trans rfl)

/-- A command whose instruction byte is not SELECT leaves `selected_aid`
unchanged. -/
theorem step_selected (s : CardState) (a : Bytes)
    (h : a.getD 1 0 ≠ 0xA4) :
    (process_apdu s a).1.selected_aid = s.selected_aid := by
  have hw : ∀ t i q1 q2 d,
      ((process_helloworld_ins t i q1 q2 d).1).selected_aid =
        t.selected_aid := by
    intro t i q1 q2 d
    have := process_helloworld_ins_frame t i q1 q2 d
    simp only [nonHwFields, Prod.mk.injEq] at this
    exact this.1
  have hc : ∀ t i q1 q2 d,
      ((process_counter_ins t i q1 q2 d).1).selected_aid = t.selected_aid := by
    intro t i q1 q2 d
    have := process_counter_ins_frame t i q1 q2 d
    simp only [nonCounterFields, Prod.mk.injEq] at this
    exact this.1
  rw [process_apdu]
  split
  · rfl
  dsimp only
  repeat' split
  all_goals
    first
    | rfl
    | exact absurd (by assumption) h
    | (rw [process_helloworld]
       exact (hw _ _ _ _ _).trans rfl)
    | (rw [process_counter]
       exact (hc _ _ _ _ _).trans rfl)

/-- `run` distributes over list append. -/
theorem run_append (s : CardState) (l1 l2 : List Bytes) :
    run s (l1 ++ l2) = run (run s l1) l2 :=
  List.foldl_append _ _ _ _

/-- A run of non-SELECT commands keeps `selected_aid` fixed and cannot
touch the slot of an unselected applet. -/
theorem run_frame (cmds : List Bytes) (s : CardState)
    (hns : ∀ c ∈ cmds, c.getD 1 0 ≠ 0xA4) :
    (run s cmds).selected_aid = s.selected_aid ∧
    (s.selected_aid ≠ some AID_HELLOWORLD → hwSlot (run s cmds) = hwSlot s) ∧
    (s.selected_aid ≠ some AID_COUNTER → ctrSlot (run s cmds) = ctrSlot s) := by
  induction cmds generalizing s with
  | nil => exact ⟨rfl, fun _ => rfl, fun _ => rfl⟩
  | cons c cs ih =>
    have hc := hns c (List.mem_cons_self c cs)
    have hcs : ∀ x ∈ cs, x.getD 1 0 ≠ 0xA4 :=
      fun x hx => hns x (List.mem_cons_of_mem c hx)
    have hsel := step_selected s c hc
    obtain ⟨ih1, ih2, ih3⟩ := ih (process_apdu s c).1 hcs
    have hrun : run s (c :: cs) = run (process_apdu s c).1 cs := rfl
    refine ⟨?_, ?_, ?_⟩
    · rw [hrun, ih1, hsel]
    · intro hhw
      rw [hrun, ih2 (by rw [hsel]; exact hhw)]
      exact step_hw_frame s c hhw
    · intro hct
      rw [hrun, ih3 (by rw [hsel]; exact hct)]
      exact step_ctr_frame s c hct

/-- Dispatching a well-formed SELECT sets `selected_aid` to the given AID
and changes nothing else in the card state. -/
theorem select_sets (s : CardState) (aid : Bytes) :
    (process_apdu s (selectApdu aid)).1 =
      { s with selected_aid := some aid } := by
  have hlen : (selectApdu aid).length = 5 + aid.length := by
    simp [selectApdu]
    omega
  rw [process_apdu, if_neg (by rw [hlen]; omega)]
  dsimp only
  rw [if_pos (show (selectApdu aid).getD 1 0 = 0xA4 from rfl)]
  rw [handle_select, if_neg (by rw [hlen]; omega)]
  dsimp only
  rw [if_neg (by
    rw [hlen, show (selectApdu aid).getD 4 0 = aid.length from rfl]
    omega)]
  dsimp only
  rw [show ((selectApdu aid).drop 5).take ((selectApdu aid).getD 4 0) = aid
    from by
      show aid.take aid.length = aid
      exact List.take_length aid]

/-- C1: applet-state isolation.  A dispatch step cannot touch the
HelloWorld slot unless the HelloWorld AID is selected, nor the Counter
slot unless the Counter AID is selected; and after SELECTing any other
AID, dispatching any sequence of non-SELECT commands there, and SELECTing
the original AID again, the original applet's slot (PIN flag, tries,
usage count and stored data for HelloWorld; value, limit, flag and
operation count for Counter) is exactly what it was before the switch. -/
theorem applet_state_isolation (s : CardState) (a : Bytes)
    (aidX aidY : Bytes) (cmds : List Bytes)
    (hX : aidX ≠ AID_HELLOWORLD) (hY : aidY ≠ AID_COUNTER)
    (hns : ∀ c ∈ cmds, c.getD 1 0 ≠ 0xA4) :
    (s.selected_aid ≠ some AID_HELLOWORLD →
      hwSlot (process_apdu s a).1 = hwSlot s) ∧
    (s.selected_aid ≠ some AID_COUNTER →
      ctrSlot (process_apdu s a).1 = ctrSlot s) ∧
    hwSlot (run s (selectApdu aidX ::
      (cmds ++ [selectApdu AID_HELLOWORLD]))) = hwSlot s ∧
    ctrSlot (run s (selectApdu aidY ::
      (cmds ++ [selectApdu AID_COUNTER]))) = ctrSlot s := by
  refine ⟨step_hw_frame s a, step_ctr_frame s a, ?_, ?_⟩
  · have e0 : run s (selectApdu aidX ::
        (cmds ++ [selectApdu AID_HELLOWORLD])) =
        run { s with selected_aid := some aidX }
          (cmds ++ [selectApdu AID_HELLOWORLD]) := by
      show run (process_apdu s (selectApdu aidX)).1 _ = _
      rw [select_sets]
    obtain ⟨r1, r2, r3⟩ :=
      run_frame cmds { s with selected_aid := some aidX } hns
    have hne : ({ s with selected_aid := some aidX } :
        CardState).selected_aid ≠ some AID_HELLOWORLD := by
      simp only []
      exact fun hcon => hX (Option.some.inj hcon)
    calc hwSlot (run s (selectApdu aidX ::
          (cmds ++ [selectApdu AID_HELLOWORLD])))
        = hwSlot (run (run { s with selected_aid := some aidX } cmds)
            [selectApdu AID_HELLOWORLD]) := by rw [e0, run_append]
      _ = hwSlot (process_apdu
            (run { s with selected_aid := some aidX } cmds)
            (selectApdu AID_HELLOWORLD)).1 := rfl
      _ = hwSlot (run { s with selected_aid := some aidX } cmds) := by
          rw [select_sets]
          rfl
      _ = hwSlot ({ s with selected_aid := some aidX } : CardState) :=
          r2 hne
      _ = hwSlot s := rfl
  · have e0 : run s (selectApdu aidY ::
        (cmds ++ [selectApdu AID_COUNTER])) =
        run { s with selected_aid := some aidY }
          (cmds ++ [selectApdu AID_COUNTER]) := by
      show run (process_apdu s (selectApdu aidY)).1 _ = _
      rw [select_sets]
    obtain ⟨r1, r2, r3⟩ :=
      run_frame cmds { s with selected_aid := some aidY } hns
    have hne : ({ s with selected_aid := some aidY } :
        CardState).selected_aid ≠ some AID_COUNTER := by
      simp only []
      exact fun hcon => hY (Option.some.inj hcon)
    calc ctrSlot (run s (selectApdu aidY ::
          (cmds ++ [selectApdu AID_COUNTER])))
        = ctrSlot (run (run { s with selected_aid := some aidY } cmds)
            [selectApdu AID_COUNTER]) := by rw [e0, run_append]
      _ = ctrSlot (process_apdu
            (run { s with selected_aid := some aidY } cmds)
            (selectApdu AID_COUNTER)).1 := rfl
      _ = ctrSlot (run { s with selected_aid := some aidY } cmds) := by
          rw [select_sets]
          rfl
      _ = ctrSlot ({ s with selected_aid := some aidY } : CardState) :=
          r3 hne
      _ = ctrSlot s := rfl

/-- Witness for C1: from a validated HelloWorld state with stored data,
select the Counter AID, reset and increment the counter, select
HelloWorld back: the HelloWorld slot is untouched. -/
theorem applet_state_isolation_witness :
    hwSlot (run
      { initialState with selected_aid := some AID_HELLOWORLD
                          hw_pin_validated := true
                          hw_data := [0xAB]
                          hw_usage_count := 7 }
      (selectApdu AID_COUNTER ::
        ([[0x80, 0x13, 0x00, 0x00], [0x80, 0x11, 0x05, 0x00]] ++
          [selectApdu AID_HELLOWORLD]))) =
    hwSlot { initialState with selected_aid := some AID_HELLOWORLD
                               hw_pin_validated := true
                               hw_data := [0xAB]
                               hw_usage_count := 7 } :=
  (applet_state_isolation _ [] AID_COUNTER AID_HELLOWORLD
    [[0x80, 0x13, 0x00, 0x00], [0x80, 0x11, 0x05, 0x00]]
    (by decide) (by decide) (by decide)).2.2.1

namespace VPCDJCardsimProxy

/-- vpcd control codes of vpcd-jcardsim-proxy.py (vsmartcard protocol). -/
def VPCD_CTRL_OFF : Nat := 0

/-- Power-on control code. -/
def VPCD_CTRL_ON : Nat := 1

/-- Reset control code. -/
def VPCD_CTRL_RESET : Nat := 2

/-- Get-ATR control code. -/
def VPCD_CTRL_ATR : Nat := 4

/-- `DEFAULT_ATR = bytes.fromhex('3B00')` of vpcd-jcardsim-proxy.py. -/
def DEFAULT_ATR : Bytes := [0x3B, 0x00]

/-- One framed input as `VPCDHandler.handle` classifies it: a declared
length of 1 is a control byte, a longer frame is an APDU, length 0 does
nothing. -/
inductive VFrame where
  | ctrl (c : Nat)
  | apdu (a : Bytes)
  | nop
  deriving Repr, DecidableEq

/-- What one loop iteration of `VPCDHandler` does: the resulting
`powered_on` flag, the reply sent back (if any), and whether
`jcardsim.send_apdu` was invoked (the only path that touches or connects
the backend). -/
structure VOut where
  powered_on : Bool
  reply : Option Bytes
  exchanged : Bool
  deriving Repr, DecidableEq

/-- One iteration of `VPCDHandler.handle`/`_handle_control`/`_handle_apdu`,
with the backend abstracted as a function from APDU to response. -/
def handlerStep (backend : Bytes → Bytes) (powered_on : Bool) :
    VFrame → VOut
  | .ctrl c =>
    if c = VPCD_CTRL_OFF then ⟨false, none, false⟩
    else if c = VPCD_CTRL_ON then ⟨true, none, false⟩
    else if c = VPCD_CTRL_RESET then ⟨true, none, false⟩
    else if c = VPCD_CTRL_ATR then ⟨powered_on, some DEFAULT_ATR, false⟩
    else ⟨powered_on, none, false⟩
  | .apdu a =>
    if powered_on then ⟨powered_on, some (backend a), true⟩
    else ⟨powered_on, some [0x69, 0x00], false⟩
  | .nop => ⟨powered_on, none, false⟩

/-- The `powered_on` flag after a whole run of frames, starting from the
constructor default `powered_on = False`. -/
def handlerRun (backend : Bytes → Bytes) (p : Bool) (fs : List VFrame) :
    Bool :=
  fs.foldl (fun q f => (handlerStep backend q f).powered_on) p

end VPCDJCardsimProxy

namespace VPCDProxy

/-- Control codes of vpcd-proxy.py. -/
def CYCLIC_POWER_OFF : Nat := 0x00

/-- Reset control code. -/
def CYCLIC_RESET : Nat := 0x01

/-- Get-ATR control code. -/
def CYCLIC_GET_ATR : Nat := 0x02

/-- APDU control code (remaining bytes are the command). -/
def CYCLIC_APDU : Nat := 0x03

/-- Card-present-check control code. -/
def CYCLIC_CARD_PRESENT : Nat := 0x04

/-- `DEFAULT_ATR = bytes.fromhex('3B8001')` of vpcd-proxy.py. -/
def DEFAULT_ATR : Bytes := [0x3B, 0x80, 0x01]

/-- What one loop iteration of `handle_vpcd_client` does: the resulting
`card_powered` flag, the reply (if any), whether `jcardsim.connect()` was
attempted, and whether `jcardsim.send_apdu` was invoked. -/
structure POut where
  card_powered : Bool
  reply : Option Bytes
  connectAttempted : Bool
  exchanged : Bool
  deriving Repr, DecidableEq

/-- Python `if response: ... else: response = b'\x6F\x00'` applied to
`send_apdu`'s outcome (`None`, an empty reply and an exception all become
`6F00`). -/
def respOf (o : Option Bytes) : Bytes :=
  match o with
  | some r => if r.isEmpty then [0x6F, 0x00] else r
  | none => [0x6F, 0x00]

/-- One iteration of `handle_vpcd_client` on a framed message, with the
backend abstracted by whether `connect()` succeeds and by the exchange
function (`none` = no response or exception). -/
def clientStep (connectOk : Bool) (exch : Bytes → Option Bytes)
    (card_powered : Bool) (data : Bytes) : POut :=
  match data with
  | [] => ⟨card_powered, none, false, false⟩
  | cmd :: rest =>
    if cmd = CYCLIC_POWER_OFF then ⟨false, some [0x00], false, false⟩
    else if cmd = CYCLIC_RESET then
      ⟨true, some (if connectOk then DEFAULT_ATR else []), true, false⟩
    else if cmd = CYCLIC_GET_ATR then
      ⟨true, some DEFAULT_ATR, !card_powered, false⟩
    else if cmd = CYCLIC_APDU then
      if card_powered then ⟨true, some (respOf (exch rest)), false, true⟩
      else if connectOk then ⟨true, some (respOf (exch rest)), true, true⟩
      else ⟨true, some [0x6F, 0x00], true, false⟩
    else if cmd = CYCLIC_CARD_PRESENT then
      ⟨card_powered, some [0x00], false, false⟩
    else ⟨card_powered, some [0x01], false, false⟩

end VPCDProxy

/-- C7 counterexample: in the `vpcd-proxy.py` adapter, an APDU frame
arriving while the card is Unpowered does not get the fixed
security-status reply — the handler instead powers the card on, attempts a
backend connection, and performs the exchange. -/
theorem unpowered_apdu_counterexample :
    (VPCDProxy.clientStep true (fun _ => some [0x90, 0x00]) false
        (0x03 :: [0x00, 0xA4, 0x04, 0x00])).connectAttempted = true ∧
    (VPCDProxy.clientStep true (fun _ => some [0x90, 0x00]) false
        (0x03 :: [0x00, 0xA4, 0x04, 0x00])).exchanged = true ∧
    (VPCDProxy.clientStep true (fun _ => some [0x90, 0x00]) false
        (0x03 :: [0x00, 0xA4, 0x04, 0x00])).reply ≠ some [0x69, 0x00] := by
  refine ⟨rfl, rfl, by decide⟩

/-- C7 (amended): in the `vpcd-jcardsim-proxy.py` adapter (`VPCDHandler`),
whenever an APDU frame arrives while the adapter is Unpowered — initially,
or after any run of frames that leaves `powered_on = False`, e.g. ending
in POWER-OFF — the reply is the fixed status word `6900` and no backend
exchange (hence no lazy backend connection) is attempted; POWER-OFF itself
always moves to Unpowered without touching the backend.  The `vpcd-proxy.py`
variant does not satisfy this: it auto-powers on and contacts the
backend. -/
theorem unpowered_apdu_no_exchange (backend : Bytes → Bytes)
    (fs : List VPCDJCardsimProxy.VFrame) (a : Bytes)
    (hp : VPCDJCardsimProxy.handlerRun backend false fs = false) :
    VPCDJCardsimProxy.handlerStep backend
        (VPCDJCardsimProxy.handlerRun backend false fs)
        (VPCDJCardsimProxy.VFrame.apdu a) =
      ⟨false, some [0x69, 0x00], false⟩ ∧
    (∀ p : Bool, VPCDJCardsimProxy.handlerStep backend p
        (VPCDJCardsimProxy.VFrame.ctrl VPCDJCardsimProxy.VPCD_CTRL_OFF) =
      ⟨false, none, false⟩) := by
  constructor
  · rw [hp]
    rfl
  · intro p
    rfl

/-- Witness for the amended C7: power on, then off, then an APDU: the
reply is `6900` and the backend function is never invoked. -/
theorem unpowered_apdu_no_exchange_witness :
    VPCDJCardsimProxy.handlerStep (fun _ => [0x90, 0x00])
        (VPCDJCardsimProxy.handlerRun (fun _ => [0x90, 0x00]) false
          [VPCDJCardsimProxy.VFrame.ctrl VPCDJCardsimProxy.VPCD_CTRL_ON,
            VPCDJCardsimProxy.VFrame.ctrl VPCDJCardsimProxy.VPCD_CTRL_OFF])
        (VPCDJCardsimProxy.VFrame.apdu [0x00, 0xA4, 0x04, 0x00]) =
      ⟨false, some [0x69, 0x00], false⟩ :=
  (unpowered_apdu_no_exchange (fun _ => [0x90, 0x00])
    [VPCDJCardsimProxy.VFrame.ctrl VPCDJCardsimProxy.VPCD_CTRL_ON,
      VPCDJCardsimProxy.VFrame.ctrl VPCDJCardsimProxy.VPCD_CTRL_OFF]
    [0x00, 0xA4, 0x04, 0x00] rfl).1

end JavacardEmu
